import Mathlib

/-!
# Verification of the Groupie lobby page core logic

Shallow embedding of the client-side lobby synchronization and
discount-tier presentation logic of the Groupie frontend
(`src/frontend/src/app/lobby/[code]/page.tsx` together with the shared
business catalog, the auth context and the polling hook), and proofs of
the specified properties about it.
-/

namespace Groopie

/-! ## Data model (`page.tsx`, interfaces `MemberInfo` and `LobbyData`) -/

structure MemberInfo where
  user_name : String
  is_ready : Bool
deriving DecidableEq, Repr

structure LobbyData where
  lobby_id : String
  lobby_code : String
  business_id : String
  leader_name : String
  status : String
  member_count : Nat
  members : List MemberInfo
  created_at : String
  expires_at : String
deriving DecidableEq, Repr

structure User where
  id : String
  name : String
deriving DecidableEq, Repr

/-! ## Discount tier table (`page.tsx`, `DISCOUNT_TIERS`) -/

structure DiscountTier where
  size : Nat
  discount : Nat
  label : String
deriving DecidableEq, Repr, Inhabited

def DISCOUNT_TIERS : List DiscountTier :=
  [⟨2, 0, "Standard"⟩,
   ⟨4, 20, "20% rabatt"⟩,
   ⟨6, 30, "30% rabatt"⟩,
   ⟨8, 40, "Beste pris!"⟩]

/-- `ProgressBar`: `DISCOUNT_TIERS.filter(t => currentCount >= t.size).pop() || DISCOUNT_TIERS[0]`.
(`DISCOUNT_TIERS` is a nonempty literal, so `headI` is exactly `DISCOUNT_TIERS[0]`.) -/
def currentDiscountTier (currentCount : Nat) : DiscountTier :=
  ((DISCOUNT_TIERS.filter (fun t => decide (t.size ≤ currentCount))).getLast?).getD
    DISCOUNT_TIERS.headI

/-- `fetchLobbyData`: discount carried by the member-joined toast,
`(DISCOUNT_TIERS.filter(t => data.member_count >= t.size).pop())?.discount || 0`. -/
def joinedDiscount (n : Nat) : Nat :=
  (((DISCOUNT_TIERS.filter (fun t => decide (t.size ≤ n))).getLast?).map
    DiscountTier.discount).getD 0

/-! ## Business catalog (`src/data/businesses.ts`) -/

structure PricingTier where
  size : Nat
  pricePerPerson : Nat
  discountLabel : String
deriving DecidableEq, Repr

structure BusinessListing where
  id : String
  name : String
  category : String
  imageUrl : String
  maxDiscount : String
  minGroupSize : Nat
  currentlyActiveGroups : Nat
  description : Option String
  address : Option String
  pricingTiers : Option (List PricingTier)
deriving DecidableEq, Repr

def MOCK_BUSINESSES : List BusinessListing :=
  [{ id := "1", name := "Strike Zone Bowling", category := "Aktivitet",
     imageUrl := "https://placehold.co/600x400?text=Bowling",
     maxDiscount := "Opptil 40% rabatt", minGroupSize := 4, currentlyActiveGroups := 2,
     description := some "Oslos beste bowlinghall", address := some "Storgata 123, 0182 Oslo",
     pricingTiers := some
       [⟨2, 250, "Standard"⟩, ⟨4, 200, "20% rabatt"⟩,
        ⟨6, 175, "30% rabatt"⟩, ⟨8, 150, "Beste pris!"⟩] },
   { id := "2", name := "Luigis Wood Fired Pizza", category := "Restaurant",
     imageUrl := "https://placehold.co/600x400?text=Pizza",
     maxDiscount := "Gratis forrett for grupper pa 6+", minGroupSize := 6,
     currentlyActiveGroups := 0,
     description := some "Autentisk italiensk pizza", address := some "Karl Johans gate 45, 0162 Oslo",
     pricingTiers := some
       [⟨2, 350, "Standard"⟩, ⟨4, 325, "Gratis drikke"⟩,
        ⟨6, 300, "Gratis forrett"⟩, ⟨10, 275, "VIP-pakke!"⟩] },
   { id := "3", name := "Velocity Go-Karting", category := "Adrenalin",
     imageUrl := "https://placehold.co/600x400?text=Go-Karts",
     maxDiscount := "100 kr rabatt per person", minGroupSize := 8,
     currentlyActiveGroups := 5,
     description := some "Norges raskeste innendors go-kart-bane",
     address := some "Industriveien 55, 0579 Oslo",
     pricingTiers := some
       [⟨2, 500, "Standard"⟩, ⟨4, 450, "50 kr rabatt"⟩,
        ⟨12, 350, "Beste pris!"⟩] },
   { id := "4", name := "The Escape Room Complex", category := "Aktivitet",
     imageUrl := "https://placehold.co/600x400?text=Escape+Room",
     maxDiscount := "20% rabatt pa hverdager", minGroupSize := 3,
     currentlyActiveGroups := 1,
     description := some "6 unike escape rooms",
     address := some "Grunerlokka 78, 0552 Oslo",
     pricingTiers := some
       [⟨2, 400, "Standard"⟩, ⟨3, 350, "12% rabatt"⟩,
        ⟨5, 320, "20% rabatt"⟩, ⟨6, 300, "Fullt rom-rabatt!"⟩] }]

/-- `getBusinessById`: `MOCK_BUSINESSES.find((business) => business.id === id)`. -/
def getBusinessById (id : String) : Option BusinessListing :=
  MOCK_BUSINESSES.find? (fun business => business.id == id)

/-! ## Price tier selection on the lobby screen (`page.tsx` lines 826–827) -/

/-- `const baseTier = business.pricingTiers?.[0]`. -/
def baseTier (business : BusinessListing) : Option PricingTier :=
  (business.pricingTiers.getD []).head?

/-- `const currentPriceTier = business.pricingTiers?.find(t => t.size <= lobby.member_count) || baseTier`.
JavaScript `find` returns the *first* matching element. -/
def currentPriceTier (business : BusinessListing) (memberCount : Nat) : Option PricingTier :=
  match (business.pricingTiers.getD []).find? (fun t => decide (t.size ≤ memberCount)) with
  | some t => some t
  | none => baseTier business

/-- The selection rule the specification states for price tiers
(modelled from the spec words, for comparison with `currentPriceTier`):
the tier with the greatest `size` not exceeding the member count,
defaulting to the smallest tier when the count is below every size. -/
def claimedPriceTier (business : BusinessListing) (memberCount : Nat) : Option PricingTier :=
  match ((business.pricingTiers.getD []).filter (fun t => decide (t.size ≤ memberCount))).getLast? with
  | some t => some t
  | none => (business.pricingTiers.getD []).head?

/-! ## Persisted local storage (`AuthContext.tsx` and `page.tsx`)

Three Groupie keys live in `localStorage`: `groupie_user` (the serialized
guest identity), `groupie_active_lobby` and `groupie_active_business_id`
(the active-lobby pointer). -/

structure LocalStore where
  userKey : Option String
  activeLobby : Option String
  activeBusiness : Option String
deriving DecidableEq, Repr

/-! ## Fetch results and reconciliation (`fetchLobbyData`, `page.tsx` lines 534–589) -/

inductive FetchResult where
  | success (d : LobbyData)
  | notFound
  | networkError
deriving DecidableEq, Repr

/-- The error message `fetchLobbyData` stores for each outcome:
404 sets `Lobbyen ble ikke funnet.`, any thrown/network failure sets
`Kunne ikke koble til serveren.`, success sets `null`. -/
def fetchError : FetchResult → Option String
  | FetchResult.success _ => none
  | FetchResult.notFound => some "Lobbyen ble ikke funnet."
  | FetchResult.networkError => some "Kunne ikke koble til serveren."

/-- The mutable refs `prevMemberCountRef` / `prevStatusRef`
(initially `0` and the empty string). -/
structure FetchRefs where
  prevMemberCount : Nat
  prevStatus : String
deriving DecidableEq, Repr

def initialRefs : FetchRefs := ⟨0, ""⟩

inductive Notification where
  | memberJoined (name : Option String) (discount : Nat)
  | groupLocked
deriving DecidableEq, Repr

def Notification.isMemberJoined : Notification → Bool
  | Notification.memberJoined _ _ => true
  | _ => false

def Notification.isGroupLocked : Notification → Bool
  | Notification.groupLocked => true
  | _ => false

/-- The toasts emitted while processing one successful snapshot
(`page.tsx` lines 551–564): a member-joined toast when the member count
strictly increased from a nonzero previous value, carrying
`data.members[data.members.length - 1]?.user_name` and the
filter-pop discount, and a group-locked toast on an OPEN→LOCKED edge. -/
def fetchNotifications (refs : FetchRefs) (d : LobbyData) : List Notification :=
  (if 0 < refs.prevMemberCount ∧ refs.prevMemberCount < d.member_count then
    [Notification.memberJoined ((d.members.getLast?).map MemberInfo.user_name)
      (joinedDiscount d.member_count)]
   else []) ++
  (if refs.prevStatus = "OPEN" ∧ d.status = "LOCKED" then [Notification.groupLocked] else [])

/-- `prevMemberCountRef.current = data.member_count; prevStatusRef.current = data.status`. -/
def updateRefs (d : LobbyData) : FetchRefs := ⟨d.member_count, d.status⟩

/-- The active-lobby pointer writes after a successful fetch
(`page.tsx` lines 570–579): set both keys when `status === 'OPEN'`,
remove both when `status === 'EXPIRED'` or `'CONFIRMED'`. -/
def pointerUpdate (store : LocalStore) (d : LobbyData) : LocalStore :=
  let store1 :=
    if d.status = "OPEN" then
      { store with activeLobby := some d.lobby_code, activeBusiness := some d.business_id }
    else store
  if d.status = "EXPIRED" ∨ d.status = "CONFIRMED" then
    { store1 with activeLobby := none, activeBusiness := none }
  else store1

/-- The error-branch self-healing (`page.tsx` lines 614–620): when the
error screen renders, remove both pointer keys iff the persisted
`groupie_active_lobby` equals this page's lobby code. -/
def renderClearStale (store : LocalStore) (lobbyCode : String) : LocalStore :=
  if store.activeLobby = some lobbyCode then
    { store with activeLobby := none, activeBusiness := none }
  else store

/-- Net effect of one fetch for lobby code `lobbyCode` (and the render
that follows it) on the persisted pointer: success runs the write-through
of lines 570–579; a 404 or a network failure leaves the fetch-time store
untouched but sends the render into the error branch, which runs the
stale-pointer clear of lines 614–620. -/
def afterFetchStore (store : LocalStore) (lobbyCode : String) : FetchResult → LocalStore
  | FetchResult.success d => pointerUpdate store d
  | FetchResult.notFound => renderClearStale store lobbyCode
  | FetchResult.networkError => renderClearStale store lobbyCode

/-- Running `fetchLobbyData` over a list of successful snapshots,
threading the previous-snapshot refs exactly as the code does, and
concatenating the emitted notifications. -/
def runFetches (refs : FetchRefs) : List LobbyData → List Notification
  | [] => []
  | d :: rest => fetchNotifications refs d ++ runFetches (updateRefs d) rest

/-- Count of OPEN→LOCKED edges along a snapshot sequence, starting from
a given previously-held status. -/
def openToLockedEdges (prev : String) : List LobbyData → Nat
  | [] => 0
  | d :: rest =>
      (if prev = "OPEN" ∧ d.status = "LOCKED" then 1 else 0) + openToLockedEdges d.status rest

/-! ## View-state gate (`LobbyPage` render, `page.tsx` lines 600–944) -/

inductive Screen where
  | loading
  | notFound
  | joinGate
  | confirmed
  /-- the normal lobby screen; the flag is true when the empty-lobby
  call-to-action replaces the business card. -/
  | normal (emptyCTA : Bool)
deriving DecidableEq, Repr

/-- The render-time component state of `LobbyPage`. -/
structure RenderState where
  isLoading : Bool
  error : Option String
  lobby : Option LobbyData
  user : Option User
  hasJoined : Bool
deriving Repr

/-- `const isUserInLobby = user && lobby.members.some(m => m.user_name === user.name)`. -/
def isUserInLobby (user : Option User) (lb : LobbyData) : Bool :=
  match user with
  | none => false
  | some u => lb.members.any (fun m => m.user_name == u.name)

/-- The screen `LobbyPage` renders, as the code's early-return cascade:
`if (isLoading)`, then `if (error || !lobby)`, then
`if (!isUserInLobby && !hasJoined)`,
then `if (lobby.status === 'CONFIRMED')`, else the normal view whose
business card is replaced by the empty-lobby call-to-action when
`getBusinessById(lobby.business_id)` is undefined. -/
def selectScreen (s : RenderState) : Screen :=
  if s.isLoading then Screen.loading
  else if s.error.isSome || s.lobby.isNone then Screen.notFound
  else
    match s.lobby with
    | none => Screen.notFound
    | some lb =>
      if !(isUserInLobby s.user lb) && !s.hasJoined then Screen.joinGate
      else if lb.status == "CONFIRMED" then Screen.confirmed
      else Screen.normal (getBusinessById lb.business_id).isNone

/-- Spec-side membership test: the current identity is present and is
among the members by exact name match. -/
def identityAmongMembers (user : Option User) (lb : LobbyData) : Prop :=
  ∃ u, user = some u ∧ u.name ∈ lb.members.map MemberInfo.user_name

instance (user : Option User) (lb : LobbyData) : Decidable (identityAmongMembers user lb) :=
  match user with
  | none => isFalse (by simp [identityAmongMembers])
  | some u =>
      decidable_of_iff (u.name ∈ lb.members.map MemberInfo.user_name)
        (by simp [identityAmongMembers])

/-- The screen-selection rule as the specification words it
(modelled from the spec, for comparison with `selectScreen`): first match
in order loading / not-found / join-gate / confirmed / normal-with-CTA. -/
def claimedScreen (s : RenderState) : Screen :=
  if s.isLoading then Screen.loading
  else
    match s.lobby with
    | none => Screen.notFound
    | some lb =>
      if s.error ≠ none then Screen.notFound
      else if ¬ identityAmongMembers s.user lb ∧ s.hasJoined = false then Screen.joinGate
      else if lb.status = "CONFIRMED" then Screen.confirmed
      else if getBusinessById lb.business_id = none then Screen.normal true
      else Screen.normal false

/-! ## Join gate (`handleJoin`, `page.tsx` lines 390–427) -/

/-- JavaScript `String.prototype.trim`: strip leading and trailing
whitespace, modelled on the character list. -/
def jsTrim (s : String) : String :=
  String.mk (((s.data.dropWhile Char.isWhitespace).reverse.dropWhile Char.isWhitespace).reverse)

/-- The join request `handleJoin` issues: `const name = displayName.trim();
if (!name) { setError(...); return; }` and otherwise a
`POST /lobbies/{code}/join` with body `{ user_name: name }`. `none` means
no request was sent. The closure receives no lobby status at all (the
`JoinGate` props are code, leader name, business name, auth state). -/
def handleJoinRequest (displayName : String) : Option String :=
  let name := jsTrim displayName
  if name = "" then none
  else some name

/-! ## Leave-group action (`page.tsx` lines 919–926) -/

/-- The confirmed leave-group click: removes `groupie_active_lobby` and
`groupie_active_business_id`, shows a toast, and navigates to `/`.
It performs no `fetch`, so the emitted HTTP request list is empty;
the result is (new store, requests issued, navigation target). -/
def leaveGroupAction (store : LocalStore) : LocalStore × List String × String :=
  ({ store with activeLobby := none, activeBusiness := none }, [], "/")

/-! ## Countdown timer (`CountdownTimer`, `page.tsx` lines 57–95) -/

/-- `Math.max(0, Math.floor((expires - now) / 1000))`, with times in
milliseconds. `Int` division with a positive divisor is floor division,
and `toNat` is the clamp at zero. -/
def remainingSeconds (expiresAt now : Int) : Nat :=
  ((expiresAt - now) / 1000).toNat

structure TimerState where
  timeRemaining : Nat
  isExpired : Bool
deriving DecidableEq, Repr

/-- One invocation of `calculateRemaining` at wall-clock time `now`:
stores the recomputed remaining seconds and, if it is zero and the
expired flag is not yet set, sets the flag and fires `onExpired`
(the returned Bool records whether the callback fired). -/
def calcStep (expiresAt : Int) (s : TimerState) (now : Int) : TimerState × Bool :=
  let remaining := remainingSeconds expiresAt now
  if remaining = 0 ∧ s.isExpired = false then (⟨remaining, true⟩, true)
  else (⟨remaining, s.isExpired⟩, false)

/-- The countdown run: `calculateRemaining` fires once at mount and then
on every 1000 ms interval tick; `times` is the list of wall-clock
instants of those invocations. Returns the final state and, per
invocation, whether `onExpired` fired. -/
def runTimer (expiresAt : Int) (s : TimerState) : List Int → TimerState × List Bool
  | [] => (s, [])
  | t :: ts =>
    let step := calcStep expiresAt s t
    let rest := runTimer expiresAt step.1 ts
    (rest.1, step.2 :: rest.2)

/-- First-occurrence indicator: true exactly at the first true of the
input, false everywhere after. -/
def firstTrue : List Bool → List Bool
  | [] => []
  | b :: bs => if b then true :: List.replicate bs.length false else false :: firstTrue bs

end Groopie
namespace Groopie

theorem filter_tiers (n : Nat) :
    DISCOUNT_TIERS.filter (fun t => decide (t.size ≤ n)) =
      if n < 2 then []
      else if n < 4 then [⟨2, 0, "Standard"⟩]
      else if n < 6 then [⟨2, 0, "Standard"⟩, ⟨4, 20, "20% rabatt"⟩]
      else if n < 8 then [⟨2, 0, "Standard"⟩, ⟨4, 20, "20% rabatt"⟩, ⟨6, 30, "30% rabatt"⟩]
      else DISCOUNT_TIERS := by
  simp only [DISCOUNT_TIERS, List.filter_cons, List.filter_nil, decide_eq_true_eq]
  split_ifs <;> first | rfl | omega

theorem currentDiscountTier_eq (n : Nat) :
    currentDiscountTier n =
      if n < 4 then ⟨2, 0, "Standard"⟩
      else if n < 6 then ⟨4, 20, "20% rabatt"⟩
      else if n < 8 then ⟨6, 30, "30% rabatt"⟩
      else ⟨8, 40, "Beste pris!"⟩ := by
  rw [currentDiscountTier, filter_tiers]
  split_ifs <;> first | rfl | omega

theorem joinedDiscount_eq (n : Nat) :
    joinedDiscount n =
      if n < 4 then 0 else if n < 6 then 20 else if n < 8 then 30 else 40 := by
  rw [joinedDiscount, filter_tiers]
  split_ifs <;> first | rfl | omega

theorem joinedDiscount_eq_engine (n : Nat) :
    joinedDiscount n = (currentDiscountTier n).discount := by
  rw [joinedDiscount_eq, currentDiscountTier_eq]
  split_ifs <;> rfl

theorem tier_sizes (u : DiscountTier) (hu : u ∈ DISCOUNT_TIERS) :
    u.size = 2 ∨ u.size = 4 ∨ u.size = 6 ∨ u.size = 8 := by
  revert u
  decide

/-- C6: for every member count `n` over the ascending discount tier
table, the current tier is the last tier with `size <= n`; when no tier
qualifies, the first (lowest) tier is used as a floor, so a tier is
never absent; in particular for count 5 the current tier has size 4 and
discount 20%. -/
theorem discount_tier_selection (n : Nat) :
    ((∃ t ∈ DISCOUNT_TIERS, t.size ≤ n) →
      currentDiscountTier n ∈ DISCOUNT_TIERS ∧
      (currentDiscountTier n).size ≤ n ∧
      ∀ t ∈ DISCOUNT_TIERS, t.size ≤ n → t.size ≤ (currentDiscountTier n).size) ∧
    ((¬ ∃ t ∈ DISCOUNT_TIERS, t.size ≤ n) →
      currentDiscountTier n = DISCOUNT_TIERS.headI ∧
      currentDiscountTier n = ⟨2, 0, "Standard"⟩) ∧
    currentDiscountTier 5 = ⟨4, 20, "20% rabatt"⟩ := by
  refine ⟨?_, ?_, by decide⟩
  · rintro ⟨t, ht, hle⟩
    have h2 : 2 ≤ n := by rcases tier_sizes t ht with h | h | h | h <;> omega
    rw [currentDiscountTier_eq]
    split_ifs with a b c
    · exact ⟨by decide, show 2 ≤ n from h2, fun u hu hule =>
        show u.size ≤ 2 by rcases tier_sizes u hu with h | h | h | h <;> omega⟩
    · exact ⟨by decide, show 4 ≤ n by omega, fun u hu hule =>
        show u.size ≤ 4 by rcases tier_sizes u hu with h | h | h | h <;> omega⟩
    · exact ⟨by decide, show 6 ≤ n by omega, fun u hu hule =>
        show u.size ≤ 6 by rcases tier_sizes u hu with h | h | h | h <;> omega⟩
    · exact ⟨by decide, show 8 ≤ n by omega, fun u hu hule =>
        show u.size ≤ 8 by rcases tier_sizes u hu with h | h | h | h <;> omega⟩
  · intro h
    have hn : n < 2 := by
      by_contra hc
      exact h ⟨⟨2, 0, "Standard"⟩, by decide, show 2 ≤ n by omega⟩
    rw [currentDiscountTier_eq, if_pos (show n < 4 by omega)]
    exact ⟨rfl, rfl⟩

theorem discount_tier_selection_witness :
    (∃ t ∈ DISCOUNT_TIERS, t.size ≤ 5) ∧
    (currentDiscountTier 5).size ≤ 5 ∧
    currentDiscountTier 5 = ⟨4, 20, "20% rabatt"⟩ ∧
    (¬ ∃ t ∈ DISCOUNT_TIERS, t.size ≤ 1) ∧
    currentDiscountTier 1 = ⟨2, 0, "Standard"⟩ :=
  ⟨⟨⟨2, 0, "Standard"⟩, by decide, by decide⟩,
   ((discount_tier_selection 5).1 ⟨⟨2, 0, "Standard"⟩, by decide, by decide⟩).2.1,
   (discount_tier_selection 5).2.2,
   by decide,
   ((discount_tier_selection 1).2.1 (by decide)).2⟩

theorem currentPriceTier_cons (b : BusinessListing) (t0 : PricingTier) (ts : List PricingTier)
    (hb : b.pricingTiers = some (t0 :: ts)) (n : Nat) (h : t0.size ≤ n) :
    currentPriceTier b n = some t0 := by
  unfold currentPriceTier
  rw [hb]
  simp only [Option.getD_some]
  rw [List.find?_cons_of_pos _ (by simpa using h)]

/-- C1: the price tier the lobby screen applies, evaluated on the
Strike Zone Bowling catalog entry (ascending tier sizes 2, 4, 6, 8). -/
theorem price_tier_applied (n : Nat) :
    ((getBusinessById "1").bind (fun b => currentPriceTier b 5) = some ⟨2, 250, "Standard"⟩) ∧
    ((getBusinessById "1").bind (fun b => claimedPriceTier b 5) = some ⟨4, 200, "20% rabatt"⟩) ∧
    ((getBusinessById "1").bind (fun b => currentPriceTier b n) = some ⟨2, 250, "Standard"⟩) := by
  refine ⟨by decide, by decide, ?_⟩
  by_cases h2 : 2 ≤ n
  · have hE : getBusinessById "1" = some
        { id := "1", name := "Strike Zone Bowling", category := "Aktivitet",
          imageUrl := "https://placehold.co/600x400?text=Bowling",
          maxDiscount := "Opptil 40% rabatt", minGroupSize := 4, currentlyActiveGroups := 2,
          description := some "Oslos beste bowlinghall",
          address := some "Storgata 123, 0182 Oslo",
          pricingTiers := some
            [⟨2, 250, "Standard"⟩, ⟨4, 200, "20% rabatt"⟩,
             ⟨6, 175, "30% rabatt"⟩, ⟨8, 150, "Beste pris!"⟩] } := by decide
    rw [hE]
    exact currentPriceTier_cons _ _ _ rfl n h2
  · have hn : n < 2 := by omega
    interval_cases n <;> decide

end Groopie
namespace Groopie

/-- C3: a poll tick whose snapshot has `member_count` strictly greater
than the previously held nonzero count emits exactly one member-joined
notification, carrying the `user_name` of the last entry of `members`
and the tier engine's discount for the new count; with a previous count
of zero (the very first successful fetch of a session) it emits none. -/
theorem member_joined_notification (refs : FetchRefs) (d : LobbyData) :
    (0 < refs.prevMemberCount → refs.prevMemberCount < d.member_count →
      (fetchNotifications refs d).filter Notification.isMemberJoined =
        [Notification.memberJoined ((d.members.getLast?).map MemberInfo.user_name)
          ((currentDiscountTier d.member_count).discount)]) ∧
    (refs.prevMemberCount = 0 →
      (fetchNotifications refs d).filter Notification.isMemberJoined = []) := by
  constructor
  · intro h1 h2
    unfold fetchNotifications
    rw [if_pos ⟨h1, h2⟩, joinedDiscount_eq_engine]
    split_ifs <;> simp [Notification.isMemberJoined]
  · intro h0
    unfold fetchNotifications
    rw [if_neg (by omega)]
    split_ifs <;> simp [Notification.isMemberJoined]

theorem member_joined_notification_witness :
    (0 < 1 ∧ 1 < 2) ∧
    (fetchNotifications ⟨1, "OPEN"⟩
        ⟨"id1", "ABC123", "1", "Kari", "OPEN", 2,
         [⟨"Kari", false⟩, ⟨"Ola", false⟩], "c", "e"⟩).filter Notification.isMemberJoined =
      [Notification.memberJoined (some "Ola") 0] ∧
    (fetchNotifications ⟨0, ""⟩
        ⟨"id1", "ABC123", "1", "Kari", "OPEN", 1,
         [⟨"Kari", false⟩], "c", "e"⟩).filter Notification.isMemberJoined = [] := by
  refine ⟨⟨by decide, by decide⟩, ?_, ?_⟩
  · have h := (member_joined_notification ⟨1, "OPEN"⟩
      ⟨"id1", "ABC123", "1", "Kari", "OPEN", 2,
       [⟨"Kari", false⟩, ⟨"Ola", false⟩], "c", "e"⟩).1 (by decide) (by decide)
    rw [h]
    decide
  · exact (member_joined_notification _ _).2 rfl

/-- C4: over every sequence of fetched snapshots, the number of
group-locked notifications equals the number of OPEN-to-LOCKED edges;
in particular a fetch observing LOCKED while the previous status was
already LOCKED (or anything other than OPEN) adds none. -/
theorem locked_edge_notifications (refs : FetchRefs) (ds : List LobbyData) :
    (runFetches refs ds).countP Notification.isGroupLocked =
      openToLockedEdges refs.prevStatus ds := by
  induction ds generalizing refs with
  | nil => rfl
  | cons d rest ih =>
    unfold runFetches openToLockedEdges
    rw [List.countP_append]
    have hstep : (fetchNotifications refs d).countP Notification.isGroupLocked =
        if refs.prevStatus = "OPEN" ∧ d.status = "LOCKED" then 1 else 0 := by
      unfold fetchNotifications
      rw [List.countP_append]
      split_ifs <;> simp [List.countP, List.countP.go, Notification.isGroupLocked]
    rw [hstep, ih]
    rfl

/-- C5: after a fetch for lobby code `code`, an OPEN snapshot sets the
persisted active-lobby pointer to `(lobby_code, business_id)`; an
EXPIRED or CONFIRMED snapshot removes both pointer keys; and a
not-found result removes the keys if and only if the persisted
active-lobby code equals `code`. -/
theorem pointer_writeback (store : LocalStore) (code : String) (d : LobbyData) :
    (d.status = "OPEN" →
      afterFetchStore store code (FetchResult.success d) =
        { store with activeLobby := some d.lobby_code, activeBusiness := some d.business_id }) ∧
    ((d.status = "EXPIRED" ∨ d.status = "CONFIRMED") →
      (afterFetchStore store code (FetchResult.success d)).userKey = store.userKey ∧
      (afterFetchStore store code (FetchResult.success d)).activeLobby = none ∧
      (afterFetchStore store code (FetchResult.success d)).activeBusiness = none) ∧
    (afterFetchStore store code FetchResult.notFound =
      if store.activeLobby = some code then
        { store with activeLobby := none, activeBusiness := none }
      else store) := by
  refine ⟨?_, ?_, rfl⟩
  · intro h
    simp [afterFetchStore, pointerUpdate, h]
  · rintro (h | h) <;> simp [afterFetchStore, pointerUpdate, h]

theorem pointer_writeback_witness :
    afterFetchStore ⟨some "u", some "OLD", some "9"⟩ "ABC"
        (FetchResult.success ⟨"id", "ABC", "1", "Kari", "OPEN", 1, [⟨"Kari", false⟩], "c", "e"⟩) =
      ⟨some "u", some "ABC", some "1"⟩ ∧
    afterFetchStore ⟨some "u", some "ABC", some "1"⟩ "ABC"
        (FetchResult.success ⟨"id", "ABC", "1", "Kari", "EXPIRED", 1, [⟨"Kari", false⟩], "c", "e"⟩) =
      ⟨some "u", none, none⟩ ∧
    afterFetchStore ⟨some "u", some "ABC", some "1"⟩ "ABC" FetchResult.notFound =
      ⟨some "u", none, none⟩ ∧
    afterFetchStore ⟨some "u", some "XYZ", some "2"⟩ "ABC" FetchResult.notFound =
      ⟨some "u", some "XYZ", some "2"⟩ := by
  refine ⟨?_, ?_, ?_, ?_⟩
  · rw [(pointer_writeback ⟨some "u", some "OLD", some "9"⟩ "ABC" _).1 rfl]
  · have h := (pointer_writeback ⟨some "u", some "ABC", some "1"⟩ "ABC"
      ⟨"id", "ABC", "1", "Kari", "EXPIRED", 1, [⟨"Kari", false⟩], "c", "e"⟩).2.1 (Or.inl rfl)
    obtain ⟨h1, h2, h3⟩ := h
    cases hE : afterFetchStore ⟨some "u", some "ABC", some "1"⟩ "ABC"
      (FetchResult.success ⟨"id", "ABC", "1", "Kari", "EXPIRED", 1, [⟨"Kari", false⟩], "c", "e"⟩)
    rw [hE] at h1 h2 h3
    simp_all
  · rw [(pointer_writeback ⟨some "u", some "ABC", some "1"⟩ "ABC"
      ⟨"id", "ABC", "1", "Kari", "EXPIRED", 1, [⟨"Kari", false⟩], "c", "e"⟩).2.2]
    decide
  · rw [(pointer_writeback ⟨some "u", some "XYZ", some "2"⟩ "ABC"
      ⟨"id", "ABC", "1", "Kari", "EXPIRED", 1, [⟨"Kari", false⟩], "c", "e"⟩).2.2]
    decide

end Groopie
namespace Groopie

theorem identityAmongMembers_iff (usr : Option User) (l : LobbyData) :
    identityAmongMembers usr l ↔ isUserInLobby usr l = true := by
  cases usr with
  | none => simp [identityAmongMembers, isUserInLobby]
  | some u => simp [identityAmongMembers, isUserInLobby, List.any_eq_true, List.mem_map]

theorem screenTail_eq (l : LobbyData) :
    (if l.status == "CONFIRMED" then Screen.confirmed
     else Screen.normal (getBusinessById l.business_id).isNone) =
    (if l.status = "CONFIRMED" then Screen.confirmed
     else if getBusinessById l.business_id = none then Screen.normal true
     else Screen.normal false) := by
  by_cases hs : l.status = "CONFIRMED"
  · simp [hs]
  · rw [if_neg (by simpa using hs), if_neg hs]
    cases hE : getBusinessById l.business_id <;> simp [hE]

/-- C2: on every render, the screen the lobby page selects is exactly
the claimed first-match cascade — loading while the first fetch is in
flight, not-found on a failed fetch or absent lobby, join-gate when the
identity is absent or not among the members by exact name match and no
client-side join completed, the confirmed/ticket screen on CONFIRMED
status, and otherwise the normal screen with an empty-lobby
call-to-action exactly when `business_id` resolves to no business. -/
theorem screen_selection (s : RenderState) : selectScreen s = claimedScreen s := by
  obtain ⟨il, err, lb, usr, hj⟩ := s
  cases il with
  | true => rfl
  | false =>
    cases lb with
    | none => cases err <;> rfl
    | some l =>
      cases err with
      | some e => rfl
      | none =>
        have hmem := identityAmongMembers_iff usr l
        by_cases hm : identityAmongMembers usr l
        · have hb : isUserInLobby usr l = true := hmem.mp hm
          calc selectScreen ⟨false, none, some l, usr, hj⟩
              = (if l.status == "CONFIRMED" then Screen.confirmed
                 else Screen.normal (getBusinessById l.business_id).isNone) := by
                simp [selectScreen, hb]
            _ = claimedScreen ⟨false, none, some l, usr, hj⟩ := by
                rw [screenTail_eq]
                simp [claimedScreen, hm]
        · have hb : isUserInLobby usr l = false := by
            cases hq : isUserInLobby usr l with
            | true => exact absurd (hmem.mpr hq) hm
            | false => rfl
          cases hj with
          | false =>
            calc selectScreen ⟨false, none, some l, usr, false⟩
                = Screen.joinGate := by simp [selectScreen, hb]
              _ = claimedScreen ⟨false, none, some l, usr, false⟩ := by
                  simp [claimedScreen, hm]
          | true =>
            calc selectScreen ⟨false, none, some l, usr, true⟩
                = (if l.status == "CONFIRMED" then Screen.confirmed
                   else Screen.normal (getBusinessById l.business_id).isNone) := by
                  simp [selectScreen, hb]
              _ = claimedScreen ⟨false, none, some l, usr, true⟩ := by
                  rw [screenTail_eq]
                  simp [claimedScreen]

end Groopie
namespace Groopie

theorem runTimer_expired (e : Int) (ts : List Int) :
    ∀ s : TimerState, s.isExpired = true →
      (runTimer e s ts).2 = List.replicate ts.length false := by
  induction ts with
  | nil => intro s hs; rfl
  | cons t ts ih =>
    intro s hs
    simp only [runTimer, calcStep, hs]
    rw [if_neg (by simp)]
    simp [ih ⟨remainingSeconds e t, true⟩ rfl, List.replicate_succ]

theorem runTimer_fires (e : Int) (ts : List Int) (r : Nat) :
    (runTimer e ⟨r, false⟩ ts).2 =
      firstTrue (ts.map fun t => decide (remainingSeconds e t = 0)) := by
  induction ts generalizing r with
  | nil => rfl
  | cons t ts ih =>
    by_cases h : remainingSeconds e t = 0
    · simp only [runTimer, calcStep, h, List.map_cons, firstTrue]
      rw [if_pos (by simp), if_pos (by simp)]
      simp [runTimer_expired e ts ⟨0, true⟩ rfl]
    · simp only [runTimer, calcStep, List.map_cons, firstTrue]
      rw [if_neg (by simp [h]), if_neg (by simp [h])]
      simp [ih]

theorem firstTrue_count (bs : List Bool) :
    (firstTrue bs).count true = if true ∈ bs then 1 else 0 := by
  induction bs with
  | nil => rfl
  | cons b bs ih =>
    cases b
    · simp [firstTrue, ih]
    · simp [firstTrue, List.count_cons, List.count_replicate]

/-- C7: the countdown recomputes the remaining whole seconds on every
tick clamped at zero (zero whenever the expiry has passed, so a past
expiry never shows positive); over any run, the expired callback fires
exactly at the first tick whose computed remaining time is zero — once
if such a tick exists, never otherwise; and when mounted with an
already-past expiry it fires on the mount invocation and on no later
tick. -/
theorem countdown_behaviour (e t0 : Int) (ts : List Int) :
    (∀ t : Int, e ≤ t → remainingSeconds e t = 0) ∧
    ((runTimer e ⟨0, false⟩ (t0 :: ts)).2 =
      firstTrue ((t0 :: ts).map fun t => decide (remainingSeconds e t = 0))) ∧
    ((∃ t ∈ t0 :: ts, remainingSeconds e t = 0) →
      ((runTimer e ⟨0, false⟩ (t0 :: ts)).2).count true = 1) ∧
    ((∀ t ∈ t0 :: ts, remainingSeconds e t ≠ 0) →
      ((runTimer e ⟨0, false⟩ (t0 :: ts)).2).count true = 0) ∧
    (e ≤ t0 →
      (runTimer e ⟨0, false⟩ (t0 :: ts)).2 = true :: List.replicate ts.length false) := by
  have hrem : ∀ t : Int, e ≤ t → remainingSeconds e t = 0 := by
    intro t ht
    unfold remainingSeconds
    omega
  refine ⟨hrem, runTimer_fires e (t0 :: ts) 0, ?_, ?_, ?_⟩
  · intro hex
    rw [runTimer_fires, firstTrue_count, if_pos (by simpa using hex)]
  · intro hall
    rw [runTimer_fires, firstTrue_count, if_neg (by simpa using hall)]
  · intro h0
    have h := hrem t0 h0
    simp only [runTimer, calcStep, h]
    rw [if_pos (by simp)]
    simp [runTimer_expired e ts ⟨0, true⟩ rfl]

theorem countdown_behaviour_witness :
    (2000 : Int) ≤ 5000 ∧ remainingSeconds 2000 5000 = 0 ∧
    (∃ t ∈ [(0 : Int), 1000, 2000, 3000], remainingSeconds 2000 t = 0) ∧
    ((runTimer 2000 ⟨0, false⟩ [0, 1000, 2000, 3000]).2).count true = 1 ∧
    (-1 : Int) ≤ 0 ∧
    (runTimer (-1) ⟨0, false⟩ [0, 1000]).2 = [true, false] := by
  refine ⟨by decide, (countdown_behaviour 2000 5000 []).1 5000 (by decide), ?_, ?_, by decide, ?_⟩
  · exact ⟨2000, by decide, by decide⟩
  · exact (countdown_behaviour 2000 0 [1000, 2000, 3000]).2.2.1 ⟨2000, by decide, by decide⟩
  · have h := (countdown_behaviour (-1) 0 [1000]).2.2.2.2 (by decide)
    rw [h]
    decide

end Groopie
namespace Groopie

/-- C8 counterexample: a 404 result and a network failure render the
same not-found screen, so they do not produce two different user-facing
error states. -/
theorem error_screens_identical :
    selectScreen ⟨false, fetchError FetchResult.notFound, none, none, false⟩ =
      selectScreen ⟨false, fetchError FetchResult.networkError, none, none, false⟩ ∧
    selectScreen ⟨false, fetchError FetchResult.notFound, none, none, false⟩ =
      Screen.notFound := by
  exact ⟨rfl, rfl⟩

/-- C8 amended: the two failure kinds store two distinct internal error
messages, but every render with either error set shows the same
not-found screen. -/
theorem error_states_amended :
    fetchError FetchResult.notFound = some "Lobbyen ble ikke funnet." ∧
    fetchError FetchResult.networkError = some "Kunne ikke koble til serveren." ∧
    fetchError FetchResult.notFound ≠ fetchError FetchResult.networkError ∧
    ∀ (lb : Option LobbyData) (usr : Option User) (hj : Bool),
      selectScreen ⟨false, fetchError FetchResult.notFound, lb, usr, hj⟩ = Screen.notFound ∧
      selectScreen ⟨false, fetchError FetchResult.networkError, lb, usr, hj⟩ = Screen.notFound := by
  refine ⟨rfl, rfl, by decide, ?_⟩
  intro lb usr hj
  constructor <;> simp [selectScreen, fetchError]

/-- C9 counterexample: joining with the valid name "Ola" while the
displayed lobby is LOCKED still sends the join request — `handleJoin`
has no lobby-status guard (the `JoinGate` props do not even include the
status). -/
theorem join_locked_counterexample :
    (⟨"id1", "ABC123", "1", "Kari", "LOCKED", 2,
      [⟨"Kari", true⟩, ⟨"Ola", true⟩], "c", "e"⟩ : LobbyData).status = "LOCKED" ∧
    handleJoinRequest "Ola" = some "Ola" := by
  exact ⟨rfl, by decide⟩

/-- C9 amended: the only client-side guard in the join action is the
empty-name check; any non-empty trimmed name produces a join request,
independent of lobby status. -/
theorem join_guard_amended (displayName : String) (h : jsTrim displayName ≠ "") :
    handleJoinRequest displayName = some (jsTrim displayName) := by
  unfold handleJoinRequest
  rw [if_neg h]

theorem join_guard_amended_witness :
    jsTrim "Ola" ≠ "" ∧ handleJoinRequest "Ola" = some (jsTrim "Ola") :=
  ⟨by decide, join_guard_amended "Ola" (by decide)⟩

/-- C10: the confirmed leave-group action removes exactly the two
persisted active-lobby keys (the guest identity key is untouched),
navigates home, and issues no HTTP request — so any server state is
left unchanged by the empty request list. -/
theorem leave_group_frame (store : LocalStore) :
    (leaveGroupAction store).1 = ⟨store.userKey, none, none⟩ ∧
    (leaveGroupAction store).2.1 = [] ∧
    (leaveGroupAction store).2.2 = "/" ∧
    ∀ (S : Type) (serverApply : S → String → S) (server : S),
      (leaveGroupAction store).2.1.foldl serverApply server = server := by
  exact ⟨rfl, rfl, rfl, fun S ap srv => rfl⟩

end Groopie
